import Mathlib

/-!
Shallow embedding of the RBAC serverless handlers of `vercel-functions`:
the role-defaults tables (`src/unnamed/part_000`, a set-role endpoint in a
boolean-grant version and a `{read,write}`-grant version), the
update-permissions handler (`src/api/update-permissions.ts`), and the
bootstrap-admin handler (`src/api/bootstrap-admin.ts`).

JavaScript objects are modelled as ordered association lists
`List (String × Value)`; the two external stores (Firebase Auth custom
claims, Firestore user documents) are modelled as oracle inputs plus an
explicit effect trace emitted by each handler.
-/

namespace VercelRBAC

/-- JSON-like runtime values as the handlers see them: JavaScript
`undefined`, `null`, booleans, numbers, strings, the Firestore
server-timestamp sentinel, and objects (ordered field lists). -/
inductive Value where
  | vUndefined : Value
  | vNull : Value
  | vBool : Bool → Value
  | vNum : Int → Value
  | vStr : String → Value
  | vTimestamp : Value
  | vObj : List (String × Value) → Value

namespace Value

/-- JavaScript `typeof`. `typeof null` is `"object"`; the Firestore
timestamp sentinel is an object. -/
def typeof : Value → String
  | vUndefined => "undefined"
  | vNull => "object"
  | vBool _ => "boolean"
  | vNum _ => "number"
  | vStr _ => "string"
  | vTimestamp => "object"
  | vObj _ => "object"

/-- JavaScript falsiness, as tested by `!x` in the handlers. -/
def falsy : Value → Bool
  | vUndefined => true
  | vNull => true
  | vBool b => !b
  | vNum n => n == 0
  | vStr s => s == ""
  | vTimestamp => false
  | vObj _ => false

/-- Is this value JavaScript `null`? -/
def isNull : Value → Bool
  | vNull => true
  | _ => false

end Value

/-- JavaScript `s.startsWith(pre)`, modelled character-wise (extensionally
`String.startsWith`, but kernel-evaluable). -/
def strStartsWith (s pre : String) : Bool :=
  pre.data.isPrefixOf s.data

/-- First-match lookup of a field in a JavaScript object (or of a role in a
defaults table). -/
def lookupKey {α : Type} (k : String) : List (String × α) → Option α
  | [] => none
  | (a, v) :: rest => if k == a then some v else lookupKey k rest

/-- The keys of an object, in order. -/
def keysOf {α : Type} (l : List (String × α)) : List String :=
  l.map Prod.fst

/-- JavaScript `Object.keys(o).includes(k)`-style key membership. -/
def containsKey {α : Type} (l : List (String × α)) (k : String) : Bool :=
  (keysOf l).contains k

/-- Property access `v.f` on a non-null value: fields of objects, and
`undefined` on primitives or missing fields. (Access on `null` throws; the
handlers below model that case separately.) -/
def fieldOrUndefined : Value → String → Value
  | .vObj fields, k => (lookupKey k fields).getD .vUndefined
  | _, _ => .vUndefined

/-- JavaScript `Object.entries`, restricted to the value forms above:
the field list of an object, and `[]` on primitives. -/
def entriesOf : Value → List (String × Value)
  | .vObj fields => fields
  | _ => []

/-- JavaScript object spread `{...c, ...p}` on field lists: the keys of `c`
in order, each taking `p`'s value when `p` also binds the key, followed by
the entries of `p` whose keys are not in `c`, in order.
This is the merge step `{...currentPermissions, ...permissions}` of
`src/api/update-permissions.ts` (lines 110–113). -/
def objMerge (c p : List (String × Value)) : List (String × Value) :=
  (c.map fun kv => (kv.1, (lookupKey kv.1 p).getD kv.2))
    ++ p.filter fun kv => !containsKey c kv.1

/-- Firestore `DocumentReference.update(fields)`: each given top-level field
replaces or extends the document data. -/
def applyUpdate (data fields : List (String × Value)) : List (String × Value) :=
  objMerge data fields

/-- The fixed module set, `validKeys` of `src/api/update-permissions.ts`
(lines 68–75). -/
def validKeys : List String :=
  ["dashboard", "reports", "inventory", "orders", "customers", "settings"]

/-- Outcome of the per-entry check in the validation loop of
`src/api/update-permissions.ts` (lines 77–94): pass, rejected with 400, or a
thrown JavaScript `TypeError`. -/
inductive EntryCheck where
  | ok : EntryCheck
  | bad : EntryCheck
  | thrown : EntryCheck
deriving DecidableEq, Repr

/-- One iteration of the validation loop of `src/api/update-permissions.ts`
(lines 77–94): reject unknown module keys, then test
`typeof value !== "object" || typeof value.read !== "boolean" ||
typeof value.write !== "boolean"`. The disjunction short-circuits, so a
non-object value is rejected before any field access; `typeof null` is
`"object"`, so for a `null` value the access `value.read` throws. -/
def checkEntry (k : String) (v : Value) : EntryCheck :=
  if !validKeys.contains k then .bad
  else if v.typeof != "object" then .bad
  else if v.isNull then .thrown
  else if (fieldOrUndefined v "read").typeof != "boolean" then .bad
  else if (fieldOrUndefined v "write").typeof != "boolean" then .bad
  else .ok

/-- The whole validation loop: first failing entry wins. -/
def validateEntries : List (String × Value) → EntryCheck
  | [] => .ok
  | (k, v) :: rest =>
    match checkEntry k v with
    | .ok => validateEntries rest
    | r => r

/-- The shape the validation loop accepts for one grant: an object (not
`null`) whose `read` and `write` accesses both yield booleans. -/
def isGrantShape (v : Value) : Bool :=
  v.typeof == "object" && !v.isNull
    && (fieldOrUndefined v "read").typeof == "boolean"
    && (fieldOrUndefined v "write").typeof == "boolean"

/-- `currentData?.permissions || {}` of `src/api/update-permissions.ts`
(line 106): the entries of the document's `permissions` field, or the empty
object when the field is missing or falsy. -/
def currentPermsOf (data : List (String × Value)) : List (String × Value) :=
  match lookupKey "permissions" data with
  | some v => if v.falsy then [] else entriesOf v
  | none => []

/-- A structured `{read, write}` grant literal. -/
def grantRW (r w : Bool) : Value :=
  .vObj [("read", .vBool r), ("write", .vBool w)]

/-- `DEFAULT_PERMISSIONS` of the `{read,write}`-grant set-role version
(`src/unnamed/part_000`, lines 219–252). -/
def DEFAULT_PERMISSIONS_RW : List (String × List (String × Value)) :=
  [ ("admin",
      [ ("dashboard", grantRW true true), ("reports", grantRW true true),
        ("inventory", grantRW true true), ("orders", grantRW true true),
        ("customers", grantRW true true), ("settings", grantRW true true) ]),
    ("sub_admin",
      [ ("dashboard", grantRW true true), ("reports", grantRW false false),
        ("inventory", grantRW false false), ("orders", grantRW false false),
        ("customers", grantRW false false), ("settings", grantRW false false) ]),
    ("cashier",
      [ ("dashboard", grantRW true false), ("reports", grantRW false false),
        ("inventory", grantRW true false), ("orders", grantRW true true),
        ("customers", grantRW true true), ("settings", grantRW false false) ]),
    ("user",
      [ ("dashboard", grantRW false false), ("reports", grantRW false false),
        ("inventory", grantRW false false), ("orders", grantRW false false),
        ("customers", grantRW false false), ("settings", grantRW false false) ]) ]

/-- `DEFAULT_PERMISSIONS` of the boolean-grant set-role version
(`src/unnamed/part_000`, lines 98–131). -/
def DEFAULT_PERMISSIONS_BOOL : List (String × List (String × Value)) :=
  [ ("admin",
      [ ("dashboard", .vBool true), ("reports", .vBool true),
        ("inventory", .vBool true), ("orders", .vBool true),
        ("customers", .vBool true), ("settings", .vBool true) ]),
    ("sub_admin",
      [ ("dashboard", .vBool true), ("reports", .vBool false),
        ("inventory", .vBool false), ("orders", .vBool false),
        ("customers", .vBool false), ("settings", .vBool false) ]),
    ("cashier",
      [ ("dashboard", .vBool true), ("reports", .vBool false),
        ("inventory", .vBool false), ("orders", .vBool true),
        ("customers", .vBool true), ("settings", .vBool false) ]),
    ("user",
      [ ("dashboard", .vBool false), ("reports", .vBool false),
        ("inventory", .vBool false), ("orders", .vBool false),
        ("customers", .vBool false), ("settings", .vBool false) ]) ]

/-- The valid role names checked by both set-role versions
(`["admin", "sub_admin", "user", "cashier"].includes(role)`). -/
def validRoles : List String :=
  ["admin", "sub_admin", "user", "cashier"]

/-- `DEFAULT_PERMISSIONS[role]` in the `{read,write}` set-role version;
indexing with a name outside the table yields `undefined`, modelled as the
empty field list (the handler only indexes after the `includes` check). -/
def defaultsForRW (r : String) : List (String × Value) :=
  (lookupKey r DEFAULT_PERMISSIONS_RW).getD []

/-- `DEFAULT_PERMISSIONS[role]` in the boolean set-role version. -/
def defaultsForBool (r : String) : List (String × Value) :=
  (lookupKey r DEFAULT_PERMISSIONS_BOOL).getD []

/-- The normalization of a legacy boolean grant `v` to `{read: v, write: v}`;
structured grants are already canonical. -/
def normalizeGrant : Value → Value
  | .vBool b => grantRW b b
  | v => v

/-- The decoded bearer token, as returned by the opaque verifier
(`admin.auth().verifyIdToken`); only its `role` claim is consulted. -/
structure DecodedToken where
  role : Option String

/-- One externally visible store action of a handler, in order of
occurrence: a token verification, a custom-claims write, a document read,
a partial document update, or a document create/overwrite. -/
inductive Effect where
  | verifyTok : Effect
  | claimsSet : Value → List (String × Value) → Effect
  | docGet : Value → Effect
  | docUpdate : Value → List (String × Value) → Effect
  | docSet : Value → List (String × Value) → Effect

/-- A request to the update-permissions endpoint: HTTP method, the
`Authorization` header if present, and the `uid` and `permissions` body
fields (`vUndefined` when the field is missing). -/
structure UpdateReq where
  method : String
  authorization : Option String
  uid : Value
  permissions : Value

/-- A request to the set-role endpoint. -/
structure SetRoleReq where
  method : String
  authorization : Option String
  uid : Value
  role : Value

/-- A request to the bootstrap-admin endpoint; `secret` is the
`x-bootstrap-secret` header if present. -/
structure BootstrapReq where
  method : String
  secret : Option String
  uid : Value

/-- The handler of `src/api/update-permissions.ts`, returning the HTTP
status and the trace of store effects. `verify` is the outcome of the
opaque token verifier (`Except.error` = it threw, caught by the outer
`catch` as a 500); `doc` is the Firestore document for the target uid
(`none` = it does not exist). The store writes themselves are assumed to
succeed, which is the only path the claims below concern. -/
def updatePermissions (req : UpdateReq) (verify : Except Unit DecodedToken)
    (doc : Option (List (String × Value))) : Nat × List Effect :=
  if req.method = "OPTIONS" then (200, [])
  else if req.method ≠ "POST" then (405, [])
  else
    match req.authorization with
    | none => (401, [])
    | some h =>
      if !strStartsWith h "Bearer " then (401, [])
      else
        match verify with
        | .error _ => (500, [.verifyTok])
        | .ok tok =>
          if tok.role ≠ some "admin" then (403, [.verifyTok])
          else if req.uid.falsy || req.permissions.falsy then (400, [.verifyTok])
          else
            match validateEntries (entriesOf req.permissions) with
            | .bad => (400, [.verifyTok])
            | .thrown => (500, [.verifyTok])
            | .ok =>
              match doc with
              | none => (404, [.verifyTok, .docGet req.uid])
              | some data =>
                let currentPermissions := currentPermsOf data
                let updatedPermissions :=
                  objMerge currentPermissions (entriesOf req.permissions)
                (200,
                  [.verifyTok, .docGet req.uid,
                   .docUpdate req.uid [("permissions", .vObj updatedPermissions)],
                   .claimsSet req.uid
                     [("role", (lookupKey "role" data).getD .vUndefined),
                      ("permissions", .vObj updatedPermissions)]])

/-- The handler of the `{read,write}`-grant set-role version
(`src/unnamed/part_000`, lines 262–334), returning the HTTP status and the
trace of store effects. -/
def setRole (req : SetRoleReq) (verify : Except Unit DecodedToken)
    (doc : Option (List (String × Value))) : Nat × List Effect :=
  if req.method = "OPTIONS" then (200, [])
  else if req.method ≠ "POST" then (405, [])
  else
    match req.authorization with
    | none => (401, [])
    | some h =>
      if !strStartsWith h "Bearer " then (401, [])
      else
        match verify with
        | .error _ => (500, [.verifyTok])
        | .ok tok =>
          if tok.role ≠ some "admin" then (403, [.verifyTok])
          else if req.uid.falsy || req.role.falsy then (400, [.verifyTok])
          else
            match req.role with
            | .vStr r =>
              if !validRoles.contains r then (400, [.verifyTok])
              else
                let permissions := Value.vObj (defaultsForRW r)
                (200, [.verifyTok,
                       .claimsSet req.uid
                         [("role", req.role), ("permissions", permissions)],
                       .docGet req.uid] ++
                      match doc with
                      | some _ =>
                        [.docUpdate req.uid
                          [("role", req.role), ("permissions", permissions)]]
                      | none =>
                        [.docSet req.uid
                          [("role", req.role), ("permissions", permissions),
                           ("createdAt", .vTimestamp)]])
            | _ => (400, [.verifyTok])

/-- The boolean full-access permission object written by
`src/api/bootstrap-admin.ts` (lines 41–48). -/
def bootstrapPermissions : List (String × Value) :=
  [ ("dashboard", .vBool true), ("reports", .vBool true),
    ("inventory", .vBool true), ("orders", .vBool true),
    ("customers", .vBool true), ("settings", .vBool true) ]

/-- The handler of `src/api/bootstrap-admin.ts`, returning the HTTP status
and the trace of store effects. `configuredSecret` is
`process.env.BOOTSTRAP_ADMIN_SECRET` (`none` = unset). -/
def bootstrapAdmin (req : BootstrapReq) (configuredSecret : Option String) :
    Nat × List Effect :=
  if req.method = "OPTIONS" then (200, [])
  else if req.method ≠ "POST" then (405, [])
  else if req.secret ≠ configuredSecret then (401, [])
  else if req.uid.falsy then (400, [])
  else
    (200,
      [.claimsSet req.uid
         [("role", .vStr "admin"), ("permissions", .vObj bootstrapPermissions)],
       .docSet req.uid
         [("role", .vStr "admin"), ("permissions", .vObj bootstrapPermissions),
          ("createdAt", .vTimestamp)]])

/-! ### Association-list lemmas -/

theorem lookupKey_append {α : Type} (k : String) (l₁ l₂ : List (String × α)) :
    lookupKey k (l₁ ++ l₂) = (lookupKey k l₁).or (lookupKey k l₂) := by
  induction l₁ with
  | nil => simp [lookupKey]
  | cons kv rest ih =>
    obtain ⟨a, v⟩ := kv
    by_cases h : k = a
    · simp [lookupKey, h]
    · simp [lookupKey, h, ih]

theorem lookupKey_eq_none {α : Type} (k : String) (l : List (String × α)) :
    lookupKey k l = none ↔ k ∉ keysOf l := by
  induction l with
  | nil => simp [lookupKey, keysOf]
  | cons kv rest ih =>
    obtain ⟨a, v⟩ := kv
    by_cases h : k = a
    · simp [lookupKey, keysOf, h]
    · simp [lookupKey, keysOf, h, ih, Ne.symm h]

theorem mem_keysOf_of_lookupKey {α : Type} (k : String) (l : List (String × α))
    (v : α) (h : lookupKey k l = some v) : k ∈ keysOf l := by
  by_contra hk
  rw [(lookupKey_eq_none k l).mpr hk] at h
  cases h

theorem lookupKey_isSome {α : Type} (k : String) (l : List (String × α))
    (h : k ∈ keysOf l) : ∃ v, lookupKey k l = some v := by
  cases hv : lookupKey k l with
  | none => exact absurd h ((lookupKey_eq_none k l).mp hv)
  | some v => exact ⟨v, rfl⟩

theorem lookupKey_mapValue {α β : Type} (g : String → α → β) (k : String)
    (c : List (String × α)) :
    lookupKey k (c.map fun kv => (kv.1, g kv.1 kv.2)) = (lookupKey k c).map (g k) := by
  induction c with
  | nil => simp [lookupKey]
  | cons kv rest ih =>
    obtain ⟨a, v⟩ := kv
    by_cases h : k = a
    · subst h; simp [lookupKey]
    · simp [lookupKey, h, ih]

theorem keysOf_append {α : Type} (l₁ l₂ : List (String × α)) :
    keysOf (l₁ ++ l₂) = keysOf l₁ ++ keysOf l₂ := by
  simp [keysOf]

theorem keysOf_mapValue {α β : Type} (g : String → α → β) (c : List (String × α)) :
    (c.map fun kv => (kv.1, g kv.1 kv.2)).map Prod.fst = c.map Prod.fst := by
  simp [List.map_map, Function.comp]

theorem keysOf_filter_subset (q : String × Value → Bool) (l : List (String × Value))
    (k : String) (h : k ∈ keysOf (l.filter q)) : k ∈ keysOf l := by
  simp only [keysOf, List.mem_map] at h ⊢
  obtain ⟨kv, hkv, rfl⟩ := h
  exact ⟨kv, (List.mem_filter.mp hkv).1, rfl⟩

theorem lookupKey_filter {α : Type} (k : String) (q : String × α → Bool)
    (l : List (String × α)) (hq : ∀ kv ∈ l, kv.1 = k → q kv = true) :
    lookupKey k (l.filter q) = lookupKey k l := by
  induction l with
  | nil => rfl
  | cons kv rest ih =>
    obtain ⟨a, v⟩ := kv
    have ihr := ih fun kv hkv => hq kv (List.mem_cons_of_mem _ hkv)
    by_cases hk : k = a
    · have hqv : q (a, v) = true := hq (a, v) (List.mem_cons_self _ _) hk.symm
      simp [List.filter_cons, hqv, lookupKey, hk]
    · cases hqv : q (a, v) with
      | true => simp [List.filter_cons, hqv, lookupKey, hk, ihr]
      | false => simp [List.filter_cons, hqv, lookupKey, hk, ihr]

theorem containsKey_iff {α : Type} (l : List (String × α)) (k : String) :
    containsKey l k = true ↔ k ∈ keysOf l := by
  simp [containsKey, List.contains]

theorem containsKey_eq_false {α : Type} (l : List (String × α)) (k : String) :
    containsKey l k = false ↔ k ∉ keysOf l := by
  rw [← containsKey_iff]
  cases containsKey l k <;> simp

/-! ### Merge lemmas -/

theorem keysOf_objMerge_eq (c p : List (String × Value)) :
    keysOf (objMerge c p) =
      keysOf c ++ keysOf (p.filter fun kv => !containsKey c kv.1) := by
  rw [objMerge, keysOf_append]
  congr 1
  exact keysOf_mapValue (fun a v => (lookupKey a p).getD v) c

theorem mem_keysOf_objMerge (c p : List (String × Value)) (k : String) :
    k ∈ keysOf (objMerge c p) ↔ k ∈ keysOf c ∨ k ∈ keysOf p := by
  rw [keysOf_objMerge_eq, List.mem_append]
  constructor
  · rintro (h | h)
    · exact Or.inl h
    · exact Or.inr (keysOf_filter_subset _ _ k h)
  · rintro (h | h)
    · exact Or.inl h
    · by_cases hc : k ∈ keysOf c
      · exact Or.inl hc
      · right
        simp only [keysOf, List.mem_map] at h ⊢
        obtain ⟨kv, hkv, rfl⟩ := h
        refine ⟨kv, List.mem_filter.mpr ⟨hkv, ?_⟩, rfl⟩
        simp [(containsKey_eq_false c kv.1).mpr hc]

theorem lookupKey_objMerge_of_mem (c p : List (String × Value)) (k : String)
    (h : k ∈ keysOf p) : lookupKey k (objMerge c p) = lookupKey k p := by
  rw [objMerge, lookupKey_append]
  have hmap := lookupKey_mapValue (fun a v => (lookupKey a p).getD v) k c
  obtain ⟨w, hw⟩ := lookupKey_isSome k p h
  cases hc : lookupKey k c with
  | some v =>
    rw [hc] at hmap
    rw [hmap]
    simp [hw]
  | none =>
    rw [hc] at hmap
    rw [hmap]
    have hck : k ∉ keysOf c := (lookupKey_eq_none k c).mp hc
    have hq : ∀ kv ∈ p, kv.1 = k → (!containsKey c kv.1) = true := by
      intro kv _ hk
      rw [hk, (containsKey_eq_false c k).mpr hck]
      rfl
    rw [lookupKey_filter k _ p hq]
    simp

theorem lookupKey_objMerge_of_not_mem (c p : List (String × Value)) (k : String)
    (h : k ∉ keysOf p) : lookupKey k (objMerge c p) = lookupKey k c := by
  rw [objMerge, lookupKey_append]
  have hp : lookupKey k p = none := (lookupKey_eq_none k p).mpr h
  have hmap := lookupKey_mapValue (fun a v => (lookupKey a p).getD v) k c
  rw [hmap]
  have hfil : lookupKey k (p.filter fun kv => !containsKey c kv.1) = none := by
    rw [lookupKey_eq_none]
    exact fun hmem => h (keysOf_filter_subset _ _ k hmem)
  cases hc : lookupKey k c <;> simp [hp, hfil]

theorem objMerge_nil (c : List (String × Value)) : objMerge c [] = c := by
  simp [objMerge, lookupKey]

theorem lookupKey_of_mem_nodup {α : Type} (l : List (String × α))
    (hl : (keysOf l).Nodup) (kv : String × α) (hkv : kv ∈ l) :
    lookupKey kv.1 l = some kv.2 := by
  induction l with
  | nil => cases hkv
  | cons hd tl ih =>
    obtain ⟨a, v⟩ := hd
    simp only [keysOf, List.map_cons, List.nodup_cons] at hl
    rcases List.mem_cons.mp hkv with rfl | hmem
    · simp [lookupKey]
    · have hk : kv.1 ∈ keysOf tl := by
        simp only [keysOf, List.mem_map]
        exact ⟨kv, hmem, rfl⟩
      have hne : kv.1 ≠ a := fun h => hl.1 (h ▸ hk)
      simpa [lookupKey, hne] using ih hl.2 hmem

theorem objMerge_idem (c p : List (String × Value))
    (hp : (keysOf p).Nodup) : objMerge (objMerge c p) p = objMerge c p := by
  have hfil : (p.filter fun kv => !containsKey (objMerge c p) kv.1) = [] := by
    rw [List.filter_eq_nil_iff]
    intro kv hkv
    have hmem : kv.1 ∈ keysOf (objMerge c p) := by
      refine (mem_keysOf_objMerge c p kv.1).mpr (Or.inr ?_)
      simp only [keysOf, List.mem_map]
      exact ⟨kv, hkv, rfl⟩
    simp [(containsKey_iff _ kv.1).mpr hmem]
  have hmap : ((objMerge c p).map fun kv => (kv.1, (lookupKey kv.1 p).getD kv.2))
      = objMerge c p := by
    have hcongr : ∀ kv ∈ objMerge c p,
        (kv.1, (lookupKey kv.1 p).getD kv.2) = kv := by
      intro kv hkv
      rw [objMerge] at hkv
      rcases List.mem_append.mp hkv with hkv | hkv
      · obtain ⟨⟨a, v⟩, _, rfl⟩ := List.mem_map.mp hkv
        cases hlk : lookupKey a p <;> simp [hlk]
      · have hkp : kv ∈ p := (List.mem_filter.mp hkv).1
        obtain ⟨a, v⟩ := kv
        rw [lookupKey_of_mem_nodup p hp (a, v) hkp]
        rfl
    calc ((objMerge c p).map fun kv => (kv.1, (lookupKey kv.1 p).getD kv.2))
        = (objMerge c p).map id := List.map_congr_left hcongr
      _ = objMerge c p := List.map_id _
  conv_lhs => rw [objMerge]
  rw [hmap, hfil, List.append_nil]

/-! ### Handler-path lemmas -/

theorem updatePermissions_success_eq (h : String)
    (hh : strStartsWith h "Bearer " = true)
    (tok : DecodedToken) (ht : tok.role = some "admin")
    (uidV : Value) (hu : uidV.falsy = false)
    (ps data : List (String × Value)) (hv : validateEntries ps = .ok) :
    updatePermissions ⟨"POST", some h, uidV, .vObj ps⟩ (.ok tok) (some data) =
      (200, [.verifyTok, .docGet uidV,
             .docUpdate uidV
               [("permissions", .vObj (objMerge (currentPermsOf data) ps))],
             .claimsSet uidV
               [("role", (lookupKey "role" data).getD .vUndefined),
                ("permissions", .vObj (objMerge (currentPermsOf data) ps))]]) := by
  simp [updatePermissions, hh, ht, hu, hv, entriesOf,
    show (Value.vObj ps).falsy = false from rfl]

/-! ### Claim theorems -/

/-- C1: for every valid role (`admin`, `sub_admin`, `cashier`, `user`), the
`{read,write}` role-defaults table has exactly the six module keys
`dashboard, reports, inventory, orders, customers, settings`; in particular
the cashier row is read-only `dashboard`, read+write `orders` and
`customers`, read-only `inventory`, and no access to `reports` and
`settings`. -/
theorem c1_defaults_table (r : String) (hr : r ∈ validRoles) :
    keysOf (defaultsForRW r) = validKeys
    ∧ lookupKey "dashboard" (defaultsForRW "cashier") = some (grantRW true false)
    ∧ lookupKey "orders" (defaultsForRW "cashier") = some (grantRW true true)
    ∧ lookupKey "customers" (defaultsForRW "cashier") = some (grantRW true true)
    ∧ lookupKey "inventory" (defaultsForRW "cashier") = some (grantRW true false)
    ∧ lookupKey "reports" (defaultsForRW "cashier") = some (grantRW false false)
    ∧ lookupKey "settings" (defaultsForRW "cashier") = some (grantRW false false) := by
  refine ⟨?_, rfl, rfl, rfl, rfl, rfl, rfl⟩
  have hcases : r = "admin" ∨ r = "sub_admin" ∨ r = "user" ∨ r = "cashier" := by
    simpa [validRoles] using hr
  rcases hcases with rfl | rfl | rfl | rfl <;> rfl

/-- Witness for C1 at role `cashier`. -/
theorem c1_defaults_table_witness :
    keysOf (defaultsForRW "cashier") = validKeys
    ∧ lookupKey "dashboard" (defaultsForRW "cashier") = some (grantRW true false)
    ∧ lookupKey "orders" (defaultsForRW "cashier") = some (grantRW true true)
    ∧ lookupKey "customers" (defaultsForRW "cashier") = some (grantRW true true)
    ∧ lookupKey "inventory" (defaultsForRW "cashier") = some (grantRW true false)
    ∧ lookupKey "reports" (defaultsForRW "cashier") = some (grantRW false false)
    ∧ lookupKey "settings" (defaultsForRW "cashier") = some (grantRW false false) :=
  c1_defaults_table "cashier" (by decide)

/-- A sample one-module patch used by the witnesses below. -/
def samplePatch : List (String × Value) :=
  [("settings", grantRW true false)]

/-- C3: the merge `{...current, ...patch}` keeps every key of `current`
(patched keys overridden, all others carried over unchanged), an empty
patch is a no-op, and the merge is idempotent. -/
theorem c3_merge_spec (c p : List (String × Value)) (k : String)
    (hp : (keysOf p).Nodup) :
    objMerge c [] = c
    ∧ (k ∈ keysOf c → k ∈ keysOf (objMerge c p))
    ∧ (k ∈ keysOf p → lookupKey k (objMerge c p) = lookupKey k p)
    ∧ (k ∉ keysOf p → lookupKey k (objMerge c p) = lookupKey k c)
    ∧ objMerge (objMerge c p) p = objMerge c p :=
  ⟨objMerge_nil c,
   fun hk => (mem_keysOf_objMerge c p k).mpr (Or.inl hk),
   fun hk => lookupKey_objMerge_of_mem c p k hk,
   fun hk => lookupKey_objMerge_of_not_mem c p k hk,
   objMerge_idem c p hp⟩

/-- Witness for C3: cashier defaults merged with a one-module `settings`
patch, observed at the patched key `settings` and the untouched key
`orders`. -/
theorem c3_merge_spec_witness :
    objMerge (defaultsForRW "cashier") [] = defaultsForRW "cashier"
    ∧ ("orders" ∈ keysOf (objMerge (defaultsForRW "cashier") samplePatch))
    ∧ lookupKey "settings" (objMerge (defaultsForRW "cashier") samplePatch)
        = lookupKey "settings" samplePatch
    ∧ lookupKey "orders" (objMerge (defaultsForRW "cashier") samplePatch)
        = lookupKey "orders" (defaultsForRW "cashier")
    ∧ objMerge (objMerge (defaultsForRW "cashier") samplePatch) samplePatch
        = objMerge (defaultsForRW "cashier") samplePatch :=
  ⟨(c3_merge_spec (defaultsForRW "cashier") samplePatch "orders" (by decide)).1,
   (c3_merge_spec (defaultsForRW "cashier") samplePatch "orders"
      (by decide)).2.1 (by decide),
   (c3_merge_spec (defaultsForRW "cashier") samplePatch "settings"
      (by decide)).2.2.1 (by decide),
   (c3_merge_spec (defaultsForRW "cashier") samplePatch "orders"
      (by decide)).2.2.2.1 (by decide),
   (c3_merge_spec (defaultsForRW "cashier") samplePatch "orders"
      (by decide)).2.2.2.2⟩

/-- C9: a patch mapping the valid module `settings` to `null` passes the
`typeof value !== "object"` test (JavaScript `typeof null` is `"object"`),
so the per-entry check does not reject with 400; the field access
`value.read` throws, and the admin-authenticated request is reported as a
500 failure. -/
theorem c9_null_grant_500 :
    checkEntry "settings" .vNull = .thrown
    ∧ checkEntry "settings" .vNull ≠ .bad
    ∧ updatePermissions
        ⟨"POST", some "Bearer t", .vStr "u1", .vObj [("settings", .vNull)]⟩
        (.ok ⟨some "admin"⟩) (some [("role", .vStr "user")])
        = (500, [.verifyTok]) :=
  ⟨rfl, by decide, rfl⟩

/-- C2 counterexample: a patch `{reports: null}` from an admin is reported
as a 500 failure, not rejected with BadRequest (400), although `null` is
neither a boolean nor a complete `{read,write}` pair. -/
theorem c2_null_not_badrequest :
    (updatePermissions
        ⟨"POST", some "Bearer adm", .vStr "u2", .vObj [("reports", .vNull)]⟩
        (.ok ⟨some "admin"⟩) (some [("role", .vStr "cashier")]))
      = (500, [.verifyTok])
    ∧ (updatePermissions
        ⟨"POST", some "Bearer adm", .vStr "u2", .vObj [("reports", .vNull)]⟩
        (.ok ⟨some "admin"⟩) (some [("role", .vStr "cashier")])).1 ≠ 400 :=
  ⟨rfl, by decide⟩

/-- C2 amended: the validation rejects with 400 every entry whose key is
outside the six module names, and every non-`null` value that is not an
object with boolean `read` and `write` fields (in particular the partial
`{reports: {read: true}}` is rejected rather than defaulting `write`); a
`null` value, however, passes the `typeof` test and the field access
throws, so the request fails with 500 instead of 400. -/
theorem c2_patch_validation (h : String)
    (hh : strStartsWith h "Bearer " = true)
    (tok : DecodedToken) (ht : tok.role = some "admin")
    (uidV : Value) (hu : uidV.falsy = false)
    (k : String) (v : Value) (doc : Option (List (String × Value))) :
    (k ∉ validKeys →
      checkEntry k v = .bad
      ∧ updatePermissions ⟨"POST", some h, uidV, .vObj [(k, v)]⟩ (.ok tok) doc
          = (400, [.verifyTok]))
    ∧ (k ∈ validKeys → v.isNull = false → isGrantShape v = false →
      checkEntry k v = .bad
      ∧ updatePermissions ⟨"POST", some h, uidV, .vObj [(k, v)]⟩ (.ok tok) doc
          = (400, [.verifyTok]))
    ∧ (k ∈ validKeys →
      checkEntry k .vNull = .thrown
      ∧ updatePermissions ⟨"POST", some h, uidV, .vObj [(k, .vNull)]⟩ (.ok tok) doc
          = (500, [.verifyTok])) := by
  refine ⟨?_, ?_, ?_⟩
  · intro hk
    have hce : checkEntry k v = .bad := by simp [checkEntry, hk]
    have hval : validateEntries [(k, v)] = .bad := by
      simp [validateEntries, hce]
    refine ⟨hce, ?_⟩
    simp [updatePermissions, hh, ht, hu, hval, entriesOf,
      show (Value.vObj [(k, v)]).falsy = false from rfl]
  · intro hk hnull hshape
    have hce : checkEntry k v = .bad := by
      by_cases hto : v.typeof = "object"
      · by_cases hr : (fieldOrUndefined v "read").typeof = "boolean"
        · by_cases hw : (fieldOrUndefined v "write").typeof = "boolean"
          · exfalso
            have hg : isGrantShape v = true := by
              simp [isGrantShape, hto, hnull, hr, hw]
            simp [hg] at hshape
          · simp [checkEntry, hk, hto, hnull, hr, hw]
        · simp [checkEntry, hk, hto, hnull, hr]
      · simp [checkEntry, hk, hto]
    have hval : validateEntries [(k, v)] = .bad := by
      simp [validateEntries, hce]
    refine ⟨hce, ?_⟩
    simp [updatePermissions, hh, ht, hu, hval, entriesOf,
      show (Value.vObj [(k, v)]).falsy = false from rfl]
  · intro hk
    have hce : checkEntry k .vNull = .thrown := by
      simp [checkEntry, hk, Value.typeof, Value.isNull]
    have hval : validateEntries [(k, .vNull)] = .thrown := by
      simp [validateEntries, hce]
    refine ⟨hce, ?_⟩
    simp [updatePermissions, hh, ht, hu, hval, entriesOf,
      show (Value.vObj [(k, .vNull)]).falsy = false from rfl]

/-- Witness for C2 amended: an unknown module key gets 400, the partial
`{reports: {read: true}}` gets 400, and `{settings: null}` gets 500. -/
theorem c2_patch_validation_witness :
    (checkEntry "nosuch" (grantRW true true) = .bad
      ∧ updatePermissions
          ⟨"POST", some "Bearer t", .vStr "u1", .vObj [("nosuch", grantRW true true)]⟩
          (.ok ⟨some "admin"⟩) (some []) = (400, [.verifyTok]))
    ∧ (checkEntry "reports" (.vObj [("read", .vBool true)]) = .bad
      ∧ updatePermissions
          ⟨"POST", some "Bearer t", .vStr "u1",
            .vObj [("reports", .vObj [("read", .vBool true)])]⟩
          (.ok ⟨some "admin"⟩) (some []) = (400, [.verifyTok]))
    ∧ (checkEntry "settings" .vNull = .thrown
      ∧ updatePermissions
          ⟨"POST", some "Bearer t", .vStr "u1", .vObj [("settings", .vNull)]⟩
          (.ok ⟨some "admin"⟩) (some []) = (500, [.verifyTok])) :=
  ⟨(c2_patch_validation "Bearer t" (by decide) ⟨some "admin"⟩ rfl (.vStr "u1")
      rfl "nosuch" (grantRW true true) (some [])).1 (by decide),
   (c2_patch_validation "Bearer t" (by decide) ⟨some "admin"⟩ rfl (.vStr "u1")
      rfl "reports" (.vObj [("read", .vBool true)]) (some [])).2.1
      (by decide) rfl (by decide),
   (c2_patch_validation "Bearer t" (by decide) ⟨some "admin"⟩ rfl (.vStr "u1")
      rfl "settings" .vNull (some [])).2.2 (by decide)⟩

/-- C4 counterexample: with a well-formed `Bearer` header but a token
verification that throws, update-permissions answers 500, not 401. -/
theorem c4_throwing_verifier_not_401 :
    updatePermissions ⟨"POST", some "Bearer x", .vStr "u9", .vObj []⟩
        (.error ()) none = (500, [.verifyTok])
    ∧ (updatePermissions ⟨"POST", some "Bearer x", .vStr "u9", .vObj []⟩
        (.error ()) none).1 ≠ 401 :=
  ⟨rfl, by decide⟩

/-- C4 amended: for Set Role and Update Permissions, a missing
`Authorization` header, or one not starting with `Bearer `, yields 401
before any store access (empty effect trace); a token verification that
throws instead yields 500, with no store read or write (only the
verification attempt itself). -/
theorem c4_auth_gate (uidV pv rv : Value) (h : String) (e : Unit)
    (verify : Except Unit DecodedToken)
    (doc : Option (List (String × Value))) :
    updatePermissions ⟨"POST", none, uidV, pv⟩ verify doc = (401, [])
    ∧ setRole ⟨"POST", none, uidV, rv⟩ verify doc = (401, [])
    ∧ (strStartsWith h "Bearer " = false →
        updatePermissions ⟨"POST", some h, uidV, pv⟩ verify doc = (401, [])
        ∧ setRole ⟨"POST", some h, uidV, rv⟩ verify doc = (401, []))
    ∧ (strStartsWith h "Bearer " = true →
        updatePermissions ⟨"POST", some h, uidV, pv⟩ (.error e) doc
          = (500, [.verifyTok])
        ∧ setRole ⟨"POST", some h, uidV, rv⟩ (.error e) doc
          = (500, [.verifyTok])) := by
  refine ⟨by simp [updatePermissions], by simp [setRole], fun hh => ?_, fun hh => ?_⟩
  · exact ⟨by simp [updatePermissions, hh], by simp [setRole, hh]⟩
  · exact ⟨by simp [updatePermissions, hh], by simp [setRole, hh]⟩

/-- Witness for C4 amended: no header, a garbled header, and a throwing
verifier, on both endpoints. -/
theorem c4_auth_gate_witness :
    updatePermissions ⟨"POST", none, .vStr "u1", .vObj []⟩ (.ok ⟨some "admin"⟩)
        none = (401, [])
    ∧ setRole ⟨"POST", none, .vStr "u1", .vStr "user"⟩ (.ok ⟨some "admin"⟩)
        none = (401, [])
    ∧ (updatePermissions ⟨"POST", some "Basic abc", .vStr "u1", .vObj []⟩
          (.ok ⟨some "admin"⟩) none = (401, [])
        ∧ setRole ⟨"POST", some "Basic abc", .vStr "u1", .vStr "user"⟩
          (.ok ⟨some "admin"⟩) none = (401, []))
    ∧ (updatePermissions ⟨"POST", some "Bearer z", .vStr "u1", .vObj []⟩
          (.error ()) none = (500, [.verifyTok])
        ∧ setRole ⟨"POST", some "Bearer z", .vStr "u1", .vStr "user"⟩
          (.error ()) none = (500, [.verifyTok])) :=
  ⟨(c4_auth_gate (.vStr "u1") (.vObj []) (.vStr "user") "Basic abc" ()
      (.ok ⟨some "admin"⟩) none).1,
   (c4_auth_gate (.vStr "u1") (.vObj []) (.vStr "user") "Basic abc" ()
      (.ok ⟨some "admin"⟩) none).2.1,
   (c4_auth_gate (.vStr "u1") (.vObj []) (.vStr "user") "Basic abc" ()
      (.ok ⟨some "admin"⟩) none).2.2.1 (by decide),
   (c4_auth_gate (.vStr "u1") (.vObj []) (.vStr "user") "Bearer z" ()
      (.ok ⟨some "admin"⟩) none).2.2.2 (by decide)⟩

/-- C5: a caller whose decoded token carries any role other than `admin`
gets 403 from both Set Role and Update Permissions, and the effect trace
contains no store write (only the token verification). -/
theorem c5_non_admin_403 (h : String) (hh : strStartsWith h "Bearer " = true)
    (tok : DecodedToken) (ht : tok.role ≠ some "admin")
    (uidV pv rv : Value) (doc : Option (List (String × Value))) :
    updatePermissions ⟨"POST", some h, uidV, pv⟩ (.ok tok) doc
      = (403, [.verifyTok])
    ∧ setRole ⟨"POST", some h, uidV, rv⟩ (.ok tok) doc = (403, [.verifyTok]) :=
  ⟨by simp [updatePermissions, hh, ht], by simp [setRole, hh, ht]⟩

/-- Witness for C5: a `user`-role caller on both endpoints. -/
theorem c5_non_admin_403_witness :
    updatePermissions ⟨"POST", some "Bearer u", .vStr "u1", .vObj []⟩
        (.ok ⟨some "user"⟩) none = (403, [.verifyTok])
    ∧ setRole ⟨"POST", some "Bearer u", .vStr "u1", .vStr "admin"⟩
        (.ok ⟨some "user"⟩) none = (403, [.verifyTok]) :=
  c5_non_admin_403 "Bearer u" (by decide) ⟨some "user"⟩ (by decide)
    (.vStr "u1") (.vObj []) (.vStr "admin") none

/-- A sample stored document with full cashier data, used by witnesses. -/
def sampleDoc : List (String × Value) :=
  [("role", .vStr "cashier"), ("permissions", .vObj (defaultsForRW "cashier")),
   ("createdAt", .vTimestamp)]

/-- A sample stored document with no `permissions` field. -/
def bareDoc : List (String × Value) :=
  [("role", .vStr "user")]

/-- C6: a successful permission update of an existing document updates the
document with exactly one field, `permissions` (so `role` and `createdAt`
are untouched by the update), and writes the claims store with `role` read
from the document's existing `role` field, paired with the merged
permissions. -/
theorem c6_update_frame (h : String) (hh : strStartsWith h "Bearer " = true)
    (tok : DecodedToken) (ht : tok.role = some "admin")
    (uidV : Value) (hu : uidV.falsy = false)
    (ps data : List (String × Value)) (hv : validateEntries ps = .ok) :
    updatePermissions ⟨"POST", some h, uidV, .vObj ps⟩ (.ok tok) (some data) =
      (200, [.verifyTok, .docGet uidV,
             .docUpdate uidV
               [("permissions", .vObj (objMerge (currentPermsOf data) ps))],
             .claimsSet uidV
               [("role", (lookupKey "role" data).getD .vUndefined),
                ("permissions", .vObj (objMerge (currentPermsOf data) ps))]])
    ∧ lookupKey "role"
        (applyUpdate data
          [("permissions", .vObj (objMerge (currentPermsOf data) ps))])
        = lookupKey "role" data
    ∧ lookupKey "createdAt"
        (applyUpdate data
          [("permissions", .vObj (objMerge (currentPermsOf data) ps))])
        = lookupKey "createdAt" data := by
  refine ⟨updatePermissions_success_eq h hh tok ht uidV hu ps data hv, ?_, ?_⟩
  · exact lookupKey_objMerge_of_not_mem data _ "role" (by simp [keysOf])
  · exact lookupKey_objMerge_of_not_mem data _ "createdAt" (by simp [keysOf])

/-- Witness for C6: admin updates `settings` on a stored cashier document. -/
theorem c6_update_frame_witness :
    updatePermissions
        ⟨"POST", some "Bearer t", .vStr "u1", .vObj samplePatch⟩
        (.ok ⟨some "admin"⟩) (some sampleDoc) =
      (200, [.verifyTok, .docGet (.vStr "u1"),
             .docUpdate (.vStr "u1")
               [("permissions",
                 .vObj (objMerge (currentPermsOf sampleDoc) samplePatch))],
             .claimsSet (.vStr "u1")
               [("role", (lookupKey "role" sampleDoc).getD .vUndefined),
                ("permissions",
                 .vObj (objMerge (currentPermsOf sampleDoc) samplePatch))]])
    ∧ lookupKey "role"
        (applyUpdate sampleDoc
          [("permissions",
            .vObj (objMerge (currentPermsOf sampleDoc) samplePatch))])
        = lookupKey "role" sampleDoc
    ∧ lookupKey "createdAt"
        (applyUpdate sampleDoc
          [("permissions",
            .vObj (objMerge (currentPermsOf sampleDoc) samplePatch))])
        = lookupKey "createdAt" sampleDoc :=
  c6_update_frame "Bearer t" (by decide) ⟨some "admin"⟩ rfl (.vStr "u1") rfl
    samplePatch sampleDoc (by decide)

/-- C7 counterexample: the boolean cashier row normalizes `dashboard` to
`{read: true, write: true}`, but the `{read,write}` table gives cashier
`dashboard` as `{read: true, write: false}` — the two tables disagree. -/
theorem c7_tables_differ :
    (lookupKey "dashboard" (defaultsForBool "cashier")).map normalizeGrant
      = some (grantRW true true)
    ∧ lookupKey "dashboard" (defaultsForRW "cashier") = some (grantRW true false)
    ∧ (lookupKey "dashboard" (defaultsForBool "cashier")).map normalizeGrant
      ≠ lookupKey "dashboard" (defaultsForRW "cashier") := by
  refine ⟨rfl, rfl, ?_⟩
  intro hcontra
  rw [show (lookupKey "dashboard" (defaultsForBool "cashier")).map normalizeGrant
        = some (grantRW true true) from rfl,
      show lookupKey "dashboard" (defaultsForRW "cashier")
        = some (grantRW true false) from rfl] at hcontra
  simp [grantRW] at hcontra

/-- C7 amended: under the normalization `v ↦ {read: v, write: v}` the
boolean role-defaults table equals the `{read,write}` table at every valid
role and module except cashier's `dashboard` (downgraded to read-only in
the new table) and cashier's `inventory` (granted read in the new table). -/
theorem c7_normalized_tables (r m : String) (hr : r ∈ validRoles)
    (hm : m ∈ validKeys)
    (hex : ¬(r = "cashier" ∧ (m = "dashboard" ∨ m = "inventory"))) :
    (lookupKey m (defaultsForBool r)).map normalizeGrant
      = lookupKey m (defaultsForRW r) := by
  have hr2 : r = "admin" ∨ r = "sub_admin" ∨ r = "user" ∨ r = "cashier" := by
    simpa [validRoles] using hr
  have hm2 : m = "dashboard" ∨ m = "reports" ∨ m = "inventory" ∨ m = "orders"
      ∨ m = "customers" ∨ m = "settings" := by
    simpa [validKeys] using hm
  rcases hr2 with rfl | rfl | rfl | rfl <;>
    rcases hm2 with rfl | rfl | rfl | rfl | rfl | rfl <;>
      first
        | rfl
        | exact absurd ⟨rfl, by decide⟩ hex

/-- Witness for C7 amended, at role `user`, module `orders`. -/
theorem c7_normalized_tables_witness :
    (lookupKey "orders" (defaultsForBool "user")).map normalizeGrant
      = lookupKey "orders" (defaultsForRW "user") :=
  c7_normalized_tables "user" "orders" (by decide) (by decide) (by decide)

/-- C8: bootstrap fails 401 when the `x-bootstrap-secret` header differs
from the configured secret, fails 400 when `uid` is falsy, and otherwise
writes role `admin` with the same full-access permission object to both the
claims store and the document store, the document stamped with a creation
time; the written object covers all six modules and normalizes to the
canonical full read+write admin set. -/
theorem c8_bootstrap (s cfg : Option String) (uidV : Value) :
    (s ≠ cfg → bootstrapAdmin ⟨"POST", s, uidV⟩ cfg = (401, []))
    ∧ (uidV.falsy = true → bootstrapAdmin ⟨"POST", cfg, uidV⟩ cfg = (400, []))
    ∧ (uidV.falsy = false → bootstrapAdmin ⟨"POST", cfg, uidV⟩ cfg =
        (200,
         [.claimsSet uidV [("role", .vStr "admin"),
                           ("permissions", .vObj bootstrapPermissions)],
          .docSet uidV [("role", .vStr "admin"),
                        ("permissions", .vObj bootstrapPermissions),
                        ("createdAt", .vTimestamp)]]))
    ∧ bootstrapPermissions.map (fun kv => (kv.1, normalizeGrant kv.2))
        = defaultsForRW "admin"
    ∧ keysOf bootstrapPermissions = validKeys :=
  ⟨fun hs => by simp [bootstrapAdmin, hs],
   fun hu => by simp [bootstrapAdmin, hu],
   fun hu => by simp [bootstrapAdmin, hu],
   rfl, rfl⟩

/-- Witness for C8: wrong secret, missing uid, and the successful
bootstrap. -/
theorem c8_bootstrap_witness :
    bootstrapAdmin ⟨"POST", some "wrong", .vStr "u1"⟩ (some "s3cret")
      = (401, [])
    ∧ bootstrapAdmin ⟨"POST", some "s3cret", .vUndefined⟩ (some "s3cret")
      = (400, [])
    ∧ bootstrapAdmin ⟨"POST", some "s3cret", .vStr "u1"⟩ (some "s3cret") =
        (200,
         [.claimsSet (.vStr "u1")
            [("role", .vStr "admin"),
             ("permissions", .vObj bootstrapPermissions)],
          .docSet (.vStr "u1")
            [("role", .vStr "admin"),
             ("permissions", .vObj bootstrapPermissions),
             ("createdAt", .vTimestamp)]])
    ∧ bootstrapPermissions.map (fun kv => (kv.1, normalizeGrant kv.2))
        = defaultsForRW "admin"
    ∧ keysOf bootstrapPermissions = validKeys :=
  ⟨(c8_bootstrap (some "wrong") (some "s3cret") (.vStr "u1")).1 (by decide),
   (c8_bootstrap (some "s3cret") (some "s3cret") .vUndefined).2.1 rfl,
   (c8_bootstrap (some "s3cret") (some "s3cret") (.vStr "u1")).2.2.1 rfl,
   (c8_bootstrap (some "s3cret") (some "s3cret") (.vStr "u1")).2.2.2.1,
   (c8_bootstrap (some "s3cret") (some "s3cret") (.vStr "u1")).2.2.2.2⟩

/-- C10: a permission update on an existing document takes the current set
from `currentData?.permissions || {}` (empty when the field is missing),
and the merged result — written identically to the document store and the
claims store — has exactly the keys of that current set plus the patch
keys, which can be fewer than the six modules. -/
theorem c10_incomplete_current (h : String)
    (hh : strStartsWith h "Bearer " = true)
    (tok : DecodedToken) (ht : tok.role = some "admin")
    (uidV : Value) (hu : uidV.falsy = false)
    (ps data : List (String × Value)) (hv : validateEntries ps = .ok)
    (k : String) :
    updatePermissions ⟨"POST", some h, uidV, .vObj ps⟩ (.ok tok) (some data) =
      (200, [.verifyTok, .docGet uidV,
             .docUpdate uidV
               [("permissions", .vObj (objMerge (currentPermsOf data) ps))],
             .claimsSet uidV
               [("role", (lookupKey "role" data).getD .vUndefined),
                ("permissions", .vObj (objMerge (currentPermsOf data) ps))]])
    ∧ (lookupKey "permissions" data = none → currentPermsOf data = [])
    ∧ (k ∈ keysOf (objMerge (currentPermsOf data) ps)
        ↔ k ∈ keysOf (currentPermsOf data) ∨ k ∈ keysOf ps) :=
  ⟨updatePermissions_success_eq h hh tok ht uidV hu ps data hv,
   fun hnone => by simp [currentPermsOf, hnone],
   mem_keysOf_objMerge (currentPermsOf data) ps k⟩

/-- Witness for C10: updating `settings` on a document with no
`permissions` field yields a one-module permission set. -/
theorem c10_incomplete_current_witness :
    updatePermissions
        ⟨"POST", some "Bearer t", .vStr "u7", .vObj samplePatch⟩
        (.ok ⟨some "admin"⟩) (some bareDoc) =
      (200, [.verifyTok, .docGet (.vStr "u7"),
             .docUpdate (.vStr "u7")
               [("permissions",
                 .vObj (objMerge (currentPermsOf bareDoc) samplePatch))],
             .claimsSet (.vStr "u7")
               [("role", (lookupKey "role" bareDoc).getD .vUndefined),
                ("permissions",
                 .vObj (objMerge (currentPermsOf bareDoc) samplePatch))]])
    ∧ currentPermsOf bareDoc = []
    ∧ ("settings" ∈ keysOf (objMerge (currentPermsOf bareDoc) samplePatch)
        ↔ "settings" ∈ keysOf (currentPermsOf bareDoc)
          ∨ "settings" ∈ keysOf samplePatch)
    ∧ keysOf (objMerge (currentPermsOf bareDoc) samplePatch) = ["settings"] :=
  ⟨(c10_incomplete_current "Bearer t" (by decide) ⟨some "admin"⟩ rfl
      (.vStr "u7") rfl samplePatch bareDoc (by decide) "settings").1,
   (c10_incomplete_current "Bearer t" (by decide) ⟨some "admin"⟩ rfl
      (.vStr "u7") rfl samplePatch bareDoc (by decide) "settings").2.1 rfl,
   (c10_incomplete_current "Bearer t" (by decide) ⟨some "admin"⟩ rfl
      (.vStr "u7") rfl samplePatch bareDoc (by decide) "settings").2.2,
   by decide⟩

end VercelRBAC
